import Mathlib

set_option maxRecDepth 4000

/-!
Shallow embedding of the End-to-End AI News Summarizer Agent
(src/app/agent.py, src/app/tools/fetch_news.py, src/app/tools/relevance_filter.py,
src/app/tools/article_extractor.py, src/app/tools/summarize.py).

Modelling conventions:
* Python dicts of heterogeneous values become association lists over `PyVal`.
* Python floats become rationals (`ℚ`); the float literals 0.1, 0.2, ... of the
  source are embedded as the exact rationals 1/10, 2/10, ....
* External effects (the news provider HTTP endpoint, the HTML extraction
  libraries, the transformer pipeline, NLTK stop words and the Porter stemmer)
  are parameters of the model, passed in environment records; the repository's
  own logic is translated statement by statement.
* `len(s)` on a Python string is `String.length`, `.strip()` is `pyStrip`,
  `.lower()` is `String.toLower`, substring containment (`a in b`) is `substrB`.
-/

/-- Association-list lookup, shared by the dict and cache models. -/
def alGet {α : Type} (d : List (String × α)) (k : String) : Option α :=
  (d.find? (fun p => p.1 == k)).map (fun p => p.2)

/-- Association-list store: replace in place when the key exists, else append. -/
def alSet {α : Type} (d : List (String × α)) (k : String) (v : α) : List (String × α) :=
  if d.any (fun p => p.1 == k) then
    d.map (fun p => if p.1 == k then (k, v) else p)
  else
    d ++ [(k, v)]

/-- Reading a key just stored returns the stored value. -/
theorem alGet_alSet_self {α : Type} (d : List (String × α)) (k : String) (v : α) :
    alGet (alSet d k v) k = some v := by
  unfold alGet alSet
  split
  case isTrue h =>
    induction d with
    | nil => simp at h
    | cons p rest ih =>
      simp only [List.any_cons, Bool.or_eq_true] at h
      by_cases hp : p.1 == k
      · simp [List.find?, hp]
      · have hr : rest.any (fun p => p.1 == k) = true := by
          rcases h with h | h
          · exact absurd h hp
          · exact h
        simp only [List.map_cons, if_neg hp]
        rw [List.find?_cons_of_neg _ (by simpa using hp)]
        exact ih hr
  case isFalse h =>
    have hnone : d.find? (fun p => p.1 == k) = none := by
      rw [List.find?_eq_none]
      intro p hp hps
      exact h (List.any_eq_true.mpr ⟨p, hp, hps⟩)
    rw [List.find?_append, hnone]
    simp [List.find?]

/-- Replacing the entries of one key does not change lookups of another key. -/
theorem find?_map_replace_ne {α : Type} (d : List (String × α)) (k k' : String) (v : α)
    (h : k' ≠ k) :
    (d.map (fun p => if p.1 == k then (k, v) else p)).find? (fun p => p.1 == k')
      = d.find? (fun p => p.1 == k') := by
  induction d with
  | nil => simp
  | cons p rest ih =>
    by_cases hp : (p.1 == k) = true
    · have hk : p.1 = k := by simpa using hp
      simp only [List.map_cons, if_pos hp]
      rw [List.find?_cons_of_neg _ (by simp [Ne.symm h]),
          List.find?_cons_of_neg _ (by simp [hk, Ne.symm h])]
      exact ih
    · simp only [List.map_cons, if_neg hp]
      by_cases hp' : (p.1 == k') = true
      · have e1 : List.find? (fun q => q.1 == k')
            (p :: rest.map (fun q => if q.1 == k then (k, v) else q)) = some p :=
          List.find?_cons_of_pos _ hp'
        have e2 : List.find? (fun q => q.1 == k') (p :: rest) = some p :=
          List.find?_cons_of_pos _ hp'
        rw [e1, e2]
      · rw [List.find?_cons_of_neg _ (by simpa using hp'),
            List.find?_cons_of_neg _ (by simpa using hp')]
        exact ih

/-- Storing one key leaves every other key unchanged. -/
theorem alGet_alSet_ne {α : Type} (d : List (String × α)) (k k' : String) (v : α)
    (h : k' ≠ k) : alGet (alSet d k v) k' = alGet d k' := by
  unfold alGet alSet
  split
  · rw [find?_map_replace_ne _ _ _ _ h]
  · rw [List.find?_append]
    cases hd : d.find? (fun p => p.1 == k') with
    | some p => simp
    | none =>
      have hkk : ((k, v).1 == k') = false := by
        simp [Ne.symm h]
      rw [List.find?_cons_of_neg _ (by simp [hkk]), List.find?_nil]
      simp

/-- Values stored in the Python dictionaries of the program. -/
inductive PyVal where
  | str (s : String)
  | int (n : Int)
  | bool (b : Bool)
  | rat (q : ℚ)
  deriving DecidableEq, Repr

/-- A Python dict, as an association list (source dicts never hold duplicate keys). -/
abbrev Dict := List (String × PyVal)

/-- Python dict `d.get(k)` returning `None` when the key is absent. -/
def dget (d : Dict) (k : String) : Option PyVal :=
  alGet d k

/-- Python dict `d.get(k, default)` for string-valued fields. -/
def dgetStr (d : Dict) (k dflt : String) : String :=
  match dget d k with
  | some (PyVal.str s) => s
  | _ => dflt

/-- Python dict `d.get(k, default)` for boolean-valued fields. -/
def dgetBool (d : Dict) (k : String) (dflt : Bool) : Bool :=
  match dget d k with
  | some (PyVal.bool b) => b
  | _ => dflt

/-- Python `d[k] = v`: replace the value in place if the key exists, else append. -/
def dset (d : Dict) (k : String) (v : PyVal) : Dict :=
  alSet d k v

/-- Python `d.update(kvs)`. -/
def dupdate (d : Dict) (kvs : List (String × PyVal)) : Dict :=
  kvs.foldl (fun acc kv => dset acc kv.1 kv.2) d

/-- Python `s.lower()` (character-wise lowering, as String.toLower). -/
def pyLower (s : String) : String :=
  String.mk (s.data.map Char.toLower)

/-- Python `s.startswith(pat)`. -/
def pyStartsWith (s pat : String) : Bool :=
  List.isPrefixOf pat.data s.data

/-- Python `s.endswith(pat)`. -/
def pyEndsWith (s pat : String) : Bool :=
  List.isSuffixOf pat.data s.data

/-- Accumulator loop of the whitespace splitter. -/
def splitWsGo : List Char → List Char → List String
  | [], acc => if acc.isEmpty then [] else [String.mk acc.reverse]
  | c :: rest, acc =>
    if c.isWhitespace then
      if acc.isEmpty then splitWsGo rest [] else String.mk acc.reverse :: splitWsGo rest []
    else splitWsGo rest (c :: acc)

/-- Python `s.split()`: split on whitespace runs, dropping empty pieces. -/
def pySplitWs (s : String) : List String :=
  splitWsGo s.data []

/-- Insert into a sorted list, keeping the new element before later equals
(the stability discipline of a stable sort). -/
def insSorted {α : Type} (le : α → α → Bool) (x : α) : List α → List α
  | [] => [x]
  | y :: ys => if le x y then x :: y :: ys else y :: insSorted le x ys

/-- Stable insertion sort (the model of Python's stable `list.sort`). -/
def insSort {α : Type} (le : α → α → Bool) : List α → List α
  | [] => []
  | x :: xs => insSorted le x (insSort le xs)

/-- Split a character list at the first occurrence of a pattern. -/
def splitOnFirst (pat : List Char) : List Char → Option (List Char × List Char)
  | [] => none
  | c :: rest =>
    if List.isPrefixOf pat (c :: rest) then some ([], (c :: rest).drop pat.length)
    else (splitOnFirst pat rest).map (fun p => (c :: p.1, p.2))

/-- Python `s.strip()`: drop leading and trailing whitespace. -/
def pyStrip (s : String) : String :=
  String.mk (((s.data.dropWhile Char.isWhitespace).reverse.dropWhile Char.isWhitespace).reverse)

/-- Python `s[:n]`. -/
def pyTake (s : String) (n : Nat) : String :=
  String.mk (s.data.take n)

/-- Python substring containment `pat in s`. -/
def substrB (pat s : String) : Bool :=
  decide (pat.data <:+: s.data)

/-- Python `' '.join(s.split())`, and the effect of `re.sub(r'\s+', ' ', s).strip()`. -/
def collapseWs (s : String) : String :=
  String.intercalate " " (pySplitWs s)

namespace RelFilter

/-!  src/app/tools/relevance_filter.py.  The NLTK stop-word corpus and the Porter
stemmer are external data; they are parameters of the model.  `word_tokenize`
is applied to text already reduced to letters and whitespace, where it behaves
as whitespace splitting. -/

/-- External NLP data used by `RelevanceFilter`: the stop-word set and the stemmer. -/
structure NlpEnv where
  stop_words : List String
  stem : String → String

/-- The effect of `re.sub(r'[^a-zA-Z\s]', '', text.lower())`. -/
def cleanNonAlpha (s : String) : String :=
  String.mk ((pyLower s).data.filter (fun c => c.isAlpha || c.isWhitespace))

/-- RelevanceFilter.extract_keywords: lower-case, strip non-letters, tokenize,
drop stop words and tokens of length at most 2, stem the rest. -/
def extract_keywords (env : NlpEnv) (text : String) : Finset String :=
  if text = "" then ∅
  else
    let cleaned := cleanNonAlpha text
    let tokens := pySplitWs cleaned
    ((tokens.filter (fun t =>
        (!(env.stop_words.contains t)) && decide (2 < t.length))).map env.stem).toFinset

/-- The lower-cased article title used by the scorer. -/
def title_of (article : Dict) : String :=
  pyLower (dgetStr article "title" "")

/-- The concatenation `f"{title} {description} {content}"` scanned by the scorer. -/
def article_text_of (article : Dict) : String :=
  title_of article ++ " " ++ pyLower (dgetStr article "description" "") ++ " " ++
    pyLower (dgetStr article "text_content" "")

/-- The keyword-overlap ratio `len(common)/len(topic_keywords)`. -/
def keyword_overlap_ratio (env : NlpEnv) (article : Dict) (search_topic : String) : ℚ :=
  let topic_keywords := extract_keywords env search_topic
  let common_keywords := topic_keywords ∩ extract_keywords env (article_text_of article)
  (common_keywords.card : ℚ) / (topic_keywords.card : ℚ)

/-- The topic words (longer than one character, lower-cased) given presence bonuses. -/
def original_words_of (search_topic : String) : List String :=
  ((pySplitWs search_topic).filter (fun w => decide (1 < w.length))).map pyLower

/-- How many bonus-eligible topic words occur anywhere in the article text. -/
def presence_count (article : Dict) (search_topic : String) : Nat :=
  ((original_words_of search_topic).filter (fun w => substrB w (article_text_of article))).length

/-- How many bonus-eligible topic words occur in the article title. -/
def title_count (article : Dict) (search_topic : String) : Nat :=
  ((original_words_of search_topic).filter (fun w => substrB w (title_of article))).length

/-- RelevanceFilter.calculate_relevance_score. -/
def calculate_relevance_score (env : NlpEnv) (article : Dict) (search_topic : String) : ℚ :=
  let topic_keywords := extract_keywords env search_topic
  if topic_keywords = ∅ then 1/2
  else
    let article_keywords := extract_keywords env (article_text_of article)
    if article_keywords = ∅ then 3/10
    else
      let keyword_score : ℚ := keyword_overlap_ratio env article search_topic
      let word_bonus : ℚ := (2/10) * (presence_count article search_topic : ℚ)
      let title_boost : ℚ := (3/10) * (title_count article search_topic : ℚ)
      let base_score : ℚ := 2/10
      min (base_score + keyword_score + word_bonus + title_boost) 1

/-- RelevanceFilter.enhance_search_terms: returns the original topic unchanged. -/
def enhance_search_terms (original_topic : String) : String :=
  original_topic

/-- Relevance score stored on an article (`article['relevance_score']`). -/
def dgetScore (d : Dict) : ℚ :=
  match dget d "relevance_score" with
  | some (PyVal.rat q) => q
  | _ => 0

/-- RelevanceFilter.filter_relevant_articles: score, keep those at or above the
threshold, attach the score, sort descending (stable). -/
def filter_relevant_articles (env : NlpEnv) (articles : List Dict) (search_topic : String)
    (min_relevance : ℚ) (max_articles : Option Nat) : List Dict :=
  let scored := articles.filterMap (fun a =>
    let score := calculate_relevance_score env a search_topic
    if min_relevance ≤ score then some (dset a "relevance_score" (PyVal.rat score)) else none)
  let sorted := insSort (fun a b => decide (dgetScore b ≤ dgetScore a)) scored
  match max_articles with
  | some m => if m = 0 then sorted else sorted.take m
  | none => sorted

end RelFilter

namespace Extractor

/-!  src/app/tools/article_extractor.py.  The three extraction libraries and
the HTTP session are external; each strategy's network and parsing effects are
parameters, while the strategy wrappers, the success thresholds, the blacklist
and the fallback chain are translated from the source. -/

/-- The result dict of one extraction attempt.  An empty `method` or `error`
models the key being absent from the source's dict. -/
structure ExtractResult where
  success : Bool
  content : String
  title : String
  text : String
  method : String
  error : String
  deriving DecidableEq, Repr

/-- A failed extraction result carrying an error reason. -/
def failRes (err : String) : ExtractResult :=
  { success := false, content := "", title := "", text := "", method := "", error := err }

/-- External effects of the extraction strategies: HTTP fetches, library
parsers, and the per-method future timeout. -/
structure ExtEnv where
  http_get : String → Except String (Nat × String)
  traf_extract : String → Option String
  html_title : String → String
  np_download : String → Except String (String × String)
  bs4_fetch : String → Except String String
  bs4_content : String → String
  bs4_title : String → String
  times_out : String → String → Bool

/-- ArticleExtractor.blacklisted_patterns. -/
def blacklisted_patterns : List String :=
  ["yahoo.com/news/videos/", "youtube.com", "tiktok.com", "instagram.com",
   "facebook.com", "twitter.com", "x.com"]

/-- ArticleExtractor._is_blacklisted. -/
def is_blacklisted (url : String) : Bool :=
  blacklisted_patterns.any (fun p => substrB p (pyLower url))

/-- ArticleExtractor._extract_with_trafilatura. -/
def extract_with_trafilatura (env : ExtEnv) (url : String) : ExtractResult :=
  match env.http_get url with
  | Except.error e => failRes e
  | Except.ok (status, body) =>
    if status ≠ 200 then failRes ("HTTP " ++ toString status)
    else
      let downloaded := if 1000000 < body.length then pyTake body 1000000 else body
      let text := env.traf_extract downloaded
      let title := env.html_title downloaded
      match text with
      | some t =>
        if decide (t ≠ "") && decide (50 < (pyStrip t).length) then
          { success := true, content := t, title := title, text := t,
            method := "trafilatura", error := "" }
        else failRes "No content found"
      | none => failRes "No content found"

/-- ArticleExtractor._extract_with_newspaper. -/
def extract_with_newspaper (env : ExtEnv) (url : String) : ExtractResult :=
  match env.np_download url with
  | Except.error e => failRes e
  | Except.ok (text, title) =>
    if decide (text ≠ "") && decide (50 < (pyStrip text).length) then
      { success := true, content := text, title := title, text := text,
        method := "newspaper", error := "" }
    else failRes "No content found"

/-- ArticleExtractor._extract_with_beautifulsoup. -/
def extract_with_beautifulsoup (env : ExtEnv) (url : String) : ExtractResult :=
  match env.bs4_fetch url with
  | Except.error e => failRes e
  | Except.ok page =>
    let content := collapseWs (env.bs4_content page)
    if decide (content ≠ "") && decide (100 < content.length) then
      { success := true, content := content, title := env.bs4_title page,
        text := content, method := "beautifulsoup", error := "" }
    else failRes "No content found"

/-- Result returned when the URL is empty or not HTTP(S). -/
def invalid_url_result : ExtractResult := failRes "Invalid URL"

/-- Result returned for blacklisted URLs. -/
def blacklisted_result : ExtractResult := failRes "URL blacklisted for extraction"

/-- Result returned when every strategy fails or times out. -/
def all_failed_result : ExtractResult := failRes "All extraction methods failed or timed out"

/-- The acceptance test of the fallback chain:
`result['success'] and result['text'] and len(result['text'].strip()) > 100`. -/
def qualifies (r : ExtractResult) : Bool :=
  r.success && decide (r.text ≠ "") && decide (100 < (pyStrip r.text).length)

/-- The ordered strategy list of ArticleExtractor.extract_article_content. -/
def methods (env : ExtEnv) : List (String × (String → ExtractResult)) :=
  [("trafilatura", extract_with_trafilatura env),
   ("newspaper", extract_with_newspaper env),
   ("beautifulsoup", extract_with_beautifulsoup env)]

/-- The fallback loop of extract_article_content, instrumented with the list of
strategies attempted, in order. -/
def runChain (env : ExtEnv) (url : String) :
    List (String × (String → ExtractResult)) → List String → ExtractResult × List String
  | [], attempts => (all_failed_result, attempts)
  | (name, f) :: rest, attempts =>
    if env.times_out url name then runChain env url rest (attempts ++ [name])
    else
      let r := f url
      if qualifies r then (r, attempts ++ [name])
      else runChain env url rest (attempts ++ [name])

/-- ArticleExtractor.extract_article_content, instrumented with the attempted
strategy names in order. -/
def extract_article_content (env : ExtEnv) (url : String) : ExtractResult × List String :=
  if url = "" ∨ ¬ pyStartsWith url "http" then (invalid_url_result, [])
  else if is_blacklisted url then (blacklisted_result, [])
  else runChain env url (methods env) []

/-- ArticleExtractor.blocked domains of is_extractable_url. -/
def blocked_domains : List String :=
  ["facebook.com", "twitter.com", "instagram.com", "linkedin.com",
   "youtube.com", "tiktok.com", "reddit.com"]

/-- ArticleExtractor.blocked URL patterns of is_extractable_url. -/
def blocked_patterns : List String :=
  ["yahoo.com/news/videos/", "finance.yahoo.com/video/", "news.yahoo.com/video/"]

/-- The netloc component of urlparse: text between the scheme separator and the
next slash. -/
def netloc (url : String) : String :=
  match splitOnFirst "://".data url.data with
  | some p => String.mk (p.2.takeWhile (fun c => c ≠ '/'))
  | none => ""

/-- ArticleExtractor.is_extractable_url. -/
def is_extractable_url (url : String) : Bool :=
  if url = "" then false
  else
    let domain := pyLower (netloc url)
    if blocked_domains.any (fun b => substrB b domain) then false
    else if blocked_patterns.any (fun p => substrB p (pyLower url)) then false
    else true

end Extractor

namespace Fetcher

/-!  src/app/tools/fetch_news.py.  The NewsAPI provider is external and is a
parameter (`provider`); request building, response classification, article
normalization, extraction enhancement, relevance filtering and caching follow
the source. -/

/-- One raw provider article.  `none` models an absent (or null) JSON field. -/
structure RawArticle where
  title : Option String
  description : Option String
  content : Option String
  url : Option String
  source_name : Option String
  publishedAt : Option String
  urlToImage : Option String
  deriving DecidableEq, Repr

/-- The request parameters built by search_news. -/
structure ProviderReq where
  q : String
  language : String
  pageSize : Nat
  sortBy : String
  fromDate : Option String
  deriving DecidableEq, Repr

/-- Possible provider behaviors for one request: non-200 HTTP response, a
transport exception, a provider-reported error payload, or a success payload. -/
inductive ProviderResp where
  | httpError (code : Nat) (body : String)
  | exn (msg : String)
  | payloadError (msg : Option String)
  | ok (articles : List RawArticle) (totalResults : Nat)

/-- Whether a provider behavior is one of the three failure forms. -/
def ProviderResp.isFailure : ProviderResp → Bool
  | ProviderResp.httpError _ _ => true
  | ProviderResp.exn _ => true
  | ProviderResp.payloadError _ => true
  | ProviderResp.ok _ _ => false

/-- The dict returned by NewsFetcher._make_request. -/
inductive MRResult where
  | success (data : List RawArticle) (totalResults : Nat)
  | error (msg : String)

/-- NewsFetcher._make_request: classify the provider response; never raises. -/
def make_request (provider : ProviderReq → ProviderResp) (req : ProviderReq) : MRResult :=
  match provider req with
  | ProviderResp.httpError code body => MRResult.error ("HTTP " ++ toString code ++ ": " ++ body)
  | ProviderResp.exn msg => MRResult.error msg
  | ProviderResp.payloadError msg => MRResult.error (msg.getD "Unknown error")
  | ProviderResp.ok arts total => MRResult.success arts total

/-- Python truthiness of an optional string field: falsy when absent or empty. -/
def optFalsy : Option String → Bool
  | none => true
  | some s => s == ""

/-- Python `a or b` on strings. -/
def pyOr (a b : String) : String := if a = "" then b else a

/-- Matcher for the regex core `\[\+\d+\s+chars\]` at the head of a character list. -/
def matchTruncCore : List Char → Bool
  | '[' :: '+' :: rest =>
    let ds := rest.takeWhile Char.isDigit
    if ds.isEmpty then false
    else
      let r2 := rest.dropWhile Char.isDigit
      let ws := r2.takeWhile Char.isWhitespace
      if ws.isEmpty then false
      else List.isPrefixOf "chars]".data (r2.dropWhile Char.isWhitespace)
  | _ => false

/-- Index of the leftmost position where the truncation-marker core matches. -/
def firstCoreIdx (cs : List Char) : Option Nat :=
  (List.range (cs.length + 1)).find? (fun i => matchTruncCore (cs.drop i))

/-- Length of the trailing whitespace run of a character list. -/
def wsRunLen (cs : List Char) : Nat :=
  (cs.reverse.takeWhile Char.isWhitespace).length

/-- Effect of `re.sub(r'\s*\[\+\d+\s+chars\].*$', '', s)` (single-line text):
cut at the leftmost truncation marker, absorbing the whitespace just before it. -/
def cleanTruncMarker (s : String) : String :=
  match firstCoreIdx s.data with
  | some j =>
    let pre := s.data.take j
    String.mk (pre.take (j - wsRunLen pre))
  | none => s

/-- NewsFetcher._process_articles: normalize raw provider items into Article
dicts, dropping items with neither description nor content. -/
def process_articles (articles : List RawArticle) : List Dict :=
  articles.filterMap (fun a =>
    if optFalsy a.description && optFalsy a.content then none
    else
      let title := a.title.getD "No title"
      let description := a.description.getD ""
      let content := a.content.getD ""
      let url := a.url.getD ""
      let source := a.source_name.getD "Unknown"
      let published_at := a.publishedAt.getD ""
      let image_url := a.urlToImage.getD ""
      let content_text0 := pyOr content description
      let content_text :=
        if substrB "[+" content_text0 && substrB "chars]" content_text0 then
          cleanTruncMarker content_text0
        else content_text0
      some [("title", PyVal.str title), ("description", PyVal.str description),
            ("content", PyVal.str content), ("url", PyVal.str url),
            ("source", PyVal.str source), ("published_at", PyVal.str published_at),
            ("image_url", PyVal.str image_url),
            ("text_content", PyVal.str content_text)])

/-- Domains skipped by the extraction-enhancement pass. -/
def problematic_domains : List String := ["yahoo.com", "finance.yahoo.com", "news.yahoo.com"]

/-- The truncation-pattern detector of _enhance_articles_with_extraction. -/
def has_truncation (text_content : String) : Bool :=
  (substrB "[+" text_content && substrB "chars]" text_content)
  || pyEndsWith text_content "..."
  || decide (text_content.length = 200)
  || substrB "ONLY AVAILABLE IN PAID PLANS" text_content

/-- The per-article body of _enhance_articles_with_extraction. -/
def enhance_one (env : Extractor.ExtEnv) (article : Dict) : Dict :=
  let url := dgetStr article "url" ""
  if url = "" || !(Extractor.is_extractable_url url) then article
  else
    let text_content := dgetStr article "text_content" ""
    if decide (text_content ≠ "") && decide (500 < text_content.length)
        && !(has_truncation text_content) then article
    else if problematic_domains.any (fun d => substrB d (pyLower url)) then article
    else
      let er := (Extractor.extract_article_content env url).1
      if er.success then
        dupdate article
          [("text_content", PyVal.str er.text),
           ("extraction_method", PyVal.str (if er.method = "" then "unknown" else er.method)),
           ("extraction_success", PyVal.bool true)]
      else
        dupdate article
          [("extraction_success", PyVal.bool false),
           ("extraction_error", PyVal.str (if er.error = "" then "Unknown error" else er.error))]

/-- NewsFetcher._enhance_articles_with_extraction. -/
def enhance_articles_with_extraction (env : Extractor.ExtEnv) (articles : List Dict) : List Dict :=
  articles.map (enhance_one env)

/-- The retrieval cache: key-addressed article lists (TTL is not modelled; the
claims quantify within one TTL window). -/
abbrev NewsCache := List (String × List Dict)

/-- Cache lookup (diskcache get, `None` when absent). -/
def cacheGet (c : NewsCache) (k : String) : Option (List Dict) :=
  alGet c k

/-- Cache store (diskcache set). -/
def cacheSet (c : NewsCache) (k : String) (v : List Dict) : NewsCache :=
  alSet c k v

/-- The whole external world of a NewsFetcher plus its configuration flags. -/
structure FetchEnv where
  nlp : RelFilter.NlpEnv
  provider : ProviderReq → ProviderResp
  ext : Extractor.ExtEnv
  use_timeframe : Bool
  enable_extraction : Bool
  yesterday : String

/-- The request parameters built inside search_news. -/
def search_params (env : FetchEnv) (topic language : String) (max_articles : Nat) : ProviderReq :=
  { q := RelFilter.enhance_search_terms topic
    language := language
    pageSize := min (max_articles * 2) 100
    sortBy := "relevancy"
    fromDate := if env.use_timeframe then some env.yesterday else none }

/-- The cache key `f"search_{topic}_{language}_{max_articles}"`. -/
def search_cache_key (topic language : String) (max_articles : Nat) : String :=
  "search_" ++ topic ++ "_" ++ language ++ "_" ++ toString max_articles

/-- NewsFetcher.search_news, instrumented: returns the article list, the updated
retrieval cache, and the number of provider requests made during the call.
The cache test is Python truthiness (`if cached_result:`), so a cached empty
list behaves as a miss. -/
def search_news (env : FetchEnv) (cache : NewsCache) (topic language : String)
    (max_articles : Nat) : List Dict × NewsCache × Nat :=
  let cache_key := search_cache_key topic language max_articles
  let hit :=
    match cacheGet cache cache_key with
    | some l => if l.isEmpty then none else some l
    | none => none
  match hit with
  | some l => (l, cache, 0)
  | none =>
    match make_request env.provider (search_params env topic language max_articles) with
    | MRResult.success data _ =>
      let articles := process_articles data
      let articles1 :=
        if env.enable_extraction then enhance_articles_with_extraction env.ext articles
        else articles
      let relevant := RelFilter.filter_relevant_articles env.nlp articles1 topic (1/10) none
      let final_articles := relevant.take max_articles
      (final_articles, cacheSet cache cache_key final_articles, 1)
    | MRResult.error _ => ([], cache, 1)

end Fetcher

namespace Summarizer

/-!  src/app/tools/summarize.py.  The transformer pipeline (with its internal
3-attempt retry/backoff loop) is external: `generate` returns the summary the
retry loop eventually produces, or `none` when every attempt failed.  The
tokenizer's 1024-token truncation is the external function `tokenizer_trunc`.
Cache keys are modelled by the md5 preimage string (hashing is injective in the
model). -/

/-- External resources of TextSummarizer: the generation pipeline and tokenizer. -/
structure SumEnv where
  generate : String → Nat → Nat → Option String
  tokenizer_trunc : String → String
  model_name : String

/-- The summarization cache (shared by per-article summaries and digests). -/
abbrev SumCache := List (String × Dict)

/-- Summarization-cache lookup. -/
def scacheGet (c : SumCache) (k : String) : Option Dict :=
  alGet c k

/-- Summarization-cache store. -/
def scacheSet (c : SumCache) (k : String) (v : Dict) : SumCache :=
  alSet c k v

/-- TextSummarizer._generate_cache_key, as the md5 preimage
`f"{text}_{max_length}_{min_length}_{model_name}"`. -/
def cache_key_of (env : SumEnv) (text : String) (max_length min_length : Nat) : String :=
  text ++ "_" ++ toString max_length ++ "_" ++ toString min_length ++ "_" ++ env.model_name

/-- TextSummarizer._preprocess_text: collapse whitespace, then truncate to the
1024-token budget via the tokenizer. -/
def preprocess_text (env : SumEnv) (text : String) : String :=
  env.tokenizer_trunc (collapseWs text)

/-- The placeholder for input too short to summarize. -/
def content_not_available : String :=
  "Content not available for summarization (requires paid plan)."

/-- The placeholder returned when every generation attempt failed. -/
def unable_placeholder : String := "Unable to generate summary due to technical limitations."

/-- TextSummarizer.summarize_text, instrumented: returns the result dict, the
updated cache, and the number of generation-pipeline invocations (0 or 1). -/
def summarize_text (env : SumEnv) (cache : SumCache) (text : String)
    (max_length min_length : Nat) : Dict × SumCache × Nat :=
  if text = "" ∨ (pyStrip text).length < 50 then
    ([("summary", PyVal.str content_not_available),
      ("original_length", PyVal.int text.length),
      ("summary_length", PyVal.int 0),
      ("cached", PyVal.bool false)], cache, 0)
  else
    let key := cache_key_of env text max_length min_length
    match scacheGet cache key with
    | some d => (dset d "cached" (PyVal.bool true), cache, 0)
    | none =>
      let processed := preprocess_text env text
      match env.generate processed max_length min_length with
      | some summary =>
        let result := [("summary", PyVal.str summary),
                       ("original_length", PyVal.int text.length),
                       ("summary_length", PyVal.int summary.length),
                       ("cached", PyVal.bool false)]
        (result, scacheSet cache key result, 1)
      | none =>
        ([("summary", PyVal.str unable_placeholder),
          ("original_length", PyVal.int text.length),
          ("summary_length", PyVal.int 0),
          ("cached", PyVal.bool false)], cache, 1)

/-- Integer-valued dict access used when copying summary fields. -/
def dgetInt (d : Dict) (k : String) (dflt : Int) : Int :=
  match dget d k with
  | some (PyVal.int n) => n
  | _ => dflt

/-- The text picked for summarization:
`article.get('text_content', article.get('description', ''))`. -/
def article_text_for_summary (a : Dict) : String :=
  match dget a "text_content" with
  | some (PyVal.str s) => s
  | _ => dgetStr a "description" ""

/-- TextSummarizer.summarize_articles, instrumented with the cache and the
generation-invocation count. -/
def summarize_articles (env : SumEnv) (cache : SumCache) (articles : List Dict)
    (max_length min_length : Nat) : List Dict × SumCache × Nat :=
  match articles with
  | [] => ([], cache, 0)
  | a :: rest =>
    let text_content := article_text_for_summary a
    let out1 := summarize_text env cache text_content max_length min_length
    let sr := out1.1
    let sa := dupdate a
      [("summary", PyVal.str (dgetStr sr "summary" "")),
       ("summary_length", PyVal.int (dgetInt sr "summary_length" 0)),
       ("original_length", PyVal.int (dgetInt sr "original_length" 0)),
       ("cached", PyVal.bool (dgetBool sr "cached" false))]
    let outRest := summarize_articles env out1.2.1 rest max_length min_length
    (sa :: outRest.1, outRest.2.1, out1.2.2 + outRest.2.2)

/-- The explanatory digest placeholder for content-poor article sets. -/
def digest_paywall_msg (n : Nat) : String :=
  "Found " ++ toString n ++ " articles, but full content requires a paid NewsData.io plan. Only article titles and descriptions are available in the free tier."

/-- The meaningful-content test of create_digest_summary. -/
def meaningful_article (a : Dict) : Bool :=
  let tc := dgetStr a "text_content" ""
  decide (tc ≠ "") && decide (100 < (pyStrip tc).length)
    && !(substrB "ONLY AVAILABLE IN PAID PLANS" tc)

/-- The combined-text accumulation loop of create_digest_summary. -/
def combine_digest_text (articles : List Dict) : String :=
  articles.foldl (fun acc a =>
    let summaryOk :=
      match dget a "summary" with
      | some (PyVal.str s) => decide (s ≠ "") && !(substrB "Content not available" s)
      | _ => false
    if summaryOk then acc ++ dgetStr a "summary" "" ++ " "
    else
      let tc := article_text_for_summary a
      if decide (tc ≠ "") && !(substrB "ONLY AVAILABLE IN PAID PLANS" tc) then
        acc ++ pyTake tc 200 ++ "... "
      else acc) ""

/-- TextSummarizer.create_digest_summary, instrumented with the cache and the
generation-invocation count. -/
def create_digest_summary (env : SumEnv) (cache : SumCache) (articles : List Dict)
    (max_length : Nat) : Dict × SumCache × Nat :=
  if articles.isEmpty then
    ([("digest", PyVal.str "No articles to summarize."),
      ("article_count", PyVal.int 0), ("cached", PyVal.bool false)], cache, 0)
  else
    let meaningful := articles.filter meaningful_article
    if meaningful.isEmpty then
      ([("digest", PyVal.str (digest_paywall_msg articles.length)),
        ("article_count", PyVal.int articles.length), ("cached", PyVal.bool false)], cache, 0)
    else
      let combined_text := combine_digest_text articles
      if pyStrip combined_text = "" then
        ([("digest", PyVal.str "No content available for digest."),
          ("article_count", PyVal.int articles.length), ("cached", PyVal.bool false)], cache, 0)
      else
        let key := cache_key_of env ("digest_" ++ combined_text) max_length 30
        match scacheGet cache key with
        | some d => (dset d "cached" (PyVal.bool true), cache, 0)
        | none =>
          let outD := summarize_text env cache combined_text max_length 30
          let result := [("digest", PyVal.str (dgetStr outD.1 "summary" "")),
                         ("article_count", PyVal.int articles.length),
                         ("cached", PyVal.bool false)]
          (result, scacheSet outD.2.1 key result, outD.2.2)

end Summarizer

namespace Agent

/-!  src/app/agent.py.  The LangGraph StateGraph built by NewsAgent._build_graph
is a finite state machine; `step` follows its nodes and edges, and `exec`
iterates `step` with fuel (the workflow always terminates well inside the fuel
used by `process_topic`).  The run is instrumented with call counters. -/

/-- The AgentState TypedDict (messages are the human-readable trace strings). -/
structure AgentSt where
  messages : List String
  topic : String
  language : String
  max_articles : Nat
  articles : List Dict
  summarized_articles : List Dict
  digest : Dict
  error : Option String
  retry_count : Nat
  quality_score : ℚ
  deriving DecidableEq, Repr

/-- Observable call counts of one workflow run. -/
structure Counters where
  retrieval_calls : Nat
  provider_requests : Nat
  summarize_calls : Nat
  digest_calls : Nat
  gen_calls : Nat
  enhance_runs : Nat
  deriving DecidableEq, Repr

/-- The full run state: agent state, the two caches, and the counters. -/
structure RunSt where
  st : AgentSt
  news_cache : Fetcher.NewsCache
  sum_cache : Summarizer.SumCache
  counters : Counters
  deriving DecidableEq, Repr

/-- The external world of one NewsAgent. -/
structure AgentEnv where
  fetch : Fetcher.FetchEnv
  sum : Summarizer.SumEnv

/-- The no-results error message set by _quality_check. -/
def no_results_msg : String :=
  "No articles found for this topic. Please try a different search term."

/-- NewsAgent._validate_input. -/
def validate_input (s : AgentSt) : AgentSt :=
  if s.topic = "" ∨ (pyStrip s.topic).length < 2 then
    { s with error := some "Topic must be at least 2 characters long" }
  else
    { s with retry_count := 0, quality_score := 0, articles := [],
             summarized_articles := [], digest := [],
             messages := s.messages ++ ["Summarize news about: " ++ s.topic] }

/-- NewsAgent._fetch_news: delegate to search_news, then drop articles whose
extraction failed. -/
def fetch_news (env : AgentEnv) (r : RunSt) : RunSt :=
  let out := Fetcher.search_news env.fetch r.news_cache r.st.topic r.st.language r.st.max_articles
  let articles := out.1.filter (fun a => dgetBool a "extraction_success" true)
  let msg := "Found " ++ toString articles.length ++ " articles about " ++ r.st.topic
  { r with
    st := { r.st with
            articles := articles,
            messages := r.st.messages ++ [msg] },
    news_cache := out.2.1,
    counters := { r.counters with
                  retrieval_calls := r.counters.retrieval_calls + 1,
                  provider_requests := r.counters.provider_requests + out.2.2 } }

/-- The content-richness step function of _quality_check. -/
def content_score (content : String) : ℚ :=
  if 200 < content.length then 1
  else if 100 < content.length then 7/10
  else if 50 < content.length then 4/10
  else 1/10

/-- NewsAgent._quality_check. -/
def quality_check (s : AgentSt) : AgentSt :=
  if s.articles.isEmpty then
    { s with quality_score := 0, error := some no_results_msg }
  else
    let article_score : ℚ := min ((s.articles.length : ℚ) / (s.max_articles : ℚ)) 1
    let content_scores := s.articles.map (fun a => content_score (dgetStr a "text_content" ""))
    let avg_content_score : ℚ :=
      if content_scores.isEmpty then 0 else content_scores.sum / (content_scores.length : ℚ)
    let sources := (s.articles.map (fun a => dgetStr a "source" "unknown")).dedup
    let source_diversity : ℚ :=
      min ((sources.length : ℚ) / max ((s.articles.length : ℚ) * (7/10)) 1) 1
    { s with quality_score := (article_score + avg_content_score + source_diversity) / 3 }

/-- NewsAgent._should_enhance_search: the routing decision after quality_check. -/
def should_enhance_search (s : AgentSt) : String :=
  if s.error.isSome then "error"
  else if s.quality_score < 1/2 ∧ s.retry_count < 2 then "enhance"
  else if s.articles.isEmpty then "error"
  else "proceed"

/-- NewsAgent._enhance_search. -/
def enhance_search (s : AgentSt) : AgentSt :=
  let s1 : AgentSt := { s with retry_count := s.retry_count + 1 }
  let original_topic := s.topic
  let strategies := [original_topic ++ " news", original_topic ++ " latest",
                     original_topic ++ " updates"]
  if s1.retry_count ≤ 3 then
    let enhanced := strategies.getD (s1.retry_count - 1) original_topic
    { s1 with topic := enhanced,
              messages := s1.messages ++ ["Enhancing search with: " ++ enhanced] }
  else s1

/-- NewsAgent._summarize_articles: choose length bounds from the article count
and delegate to the Summarization Service. -/
def summarize_node (env : AgentEnv) (r : RunSt) : RunSt :=
  let article_count := r.st.articles.length
  let lens : Nat × Nat :=
    if 15 < article_count then (100, 30)
    else if 10 < article_count then (130, 40)
    else (150, 50)
  let out := Summarizer.summarize_articles env.sum r.sum_cache r.st.articles lens.1 lens.2
  let msg := "Summarized " ++ toString out.1.length ++ " articles"
  { r with
    st := { r.st with
            summarized_articles := out.1,
            messages := r.st.messages ++ [msg] },
    sum_cache := out.2.1,
    counters := { r.counters with
                  summarize_calls := r.counters.summarize_calls + 1,
                  gen_calls := r.counters.gen_calls + out.2.2 } }

/-- NewsAgent._create_digest. -/
def create_digest (env : AgentEnv) (r : RunSt) : RunSt :=
  let article_count := r.st.summarized_articles.length
  let digest_length := min (200 + article_count * 10) 300
  let out := Summarizer.create_digest_summary env.sum r.sum_cache r.st.summarized_articles
    digest_length
  let msg := "Created executive summary covering " ++ toString article_count ++ " articles"
  { r with
    st := { r.st with
            digest := out.1,
            messages := r.st.messages ++ [msg] },
    sum_cache := out.2.1,
    counters := { r.counters with
                  digest_calls := r.counters.digest_calls + 1,
                  gen_calls := r.counters.gen_calls + out.2.2 } }

/-- NewsAgent._format_response. -/
def format_response (s : AgentSt) : AgentSt :=
  { s with messages := s.messages ++ ["News summary completed successfully!"] }

/-- NewsAgent._handle_error. -/
def handle_error (s : AgentSt) : AgentSt :=
  let msg := s.error.getD "Unknown error occurred"
  { s with messages := s.messages ++ ["Error: " ++ msg] }

/-- The nodes of the LangGraph workflow (plus the END marker). -/
inductive Node where
  | validate | fetch | quality | enhance | summarizeN | digestN | format | handleError | done
  deriving DecidableEq, Repr

/-- One transition of the compiled workflow graph. -/
def step (env : AgentEnv) : Node × RunSt → Node × RunSt
  | (Node.validate, r) => (Node.fetch, { r with st := validate_input r.st })
  | (Node.fetch, r) => (Node.quality, fetch_news env r)
  | (Node.quality, r) =>
    let r1 : RunSt := { r with st := quality_check r.st }
    let d := should_enhance_search r1.st
    if d = "enhance" then (Node.enhance, r1)
    else if d = "proceed" then (Node.summarizeN, r1)
    else (Node.handleError, r1)
  | (Node.enhance, r) =>
    (Node.fetch,
      { r with
        st := enhance_search r.st,
        counters := { r.counters with enhance_runs := r.counters.enhance_runs + 1 } })
  | (Node.summarizeN, r) => (Node.digestN, summarize_node env r)
  | (Node.digestN, r) => (Node.format, create_digest env r)
  | (Node.format, r) => (Node.done, { r with st := format_response r.st })
  | (Node.handleError, r) => (Node.done, { r with st := handle_error r.st })
  | (Node.done, r) => (Node.done, r)

/-- Iterated graph execution with fuel. -/
def exec (env : AgentEnv) : Nat → Node × RunSt → Node × RunSt
  | 0, c => c
  | n + 1, c => exec env n (step env c)

/-- The initial AgentState built by process_topic. -/
def initial_state (topic language : String) (max_articles : Nat) : AgentSt :=
  { messages := [], topic := topic, language := language, max_articles := max_articles,
    articles := [], summarized_articles := [], digest := [], error := none,
    retry_count := 0, quality_score := 0 }

/-- The initial run configuration of one process_topic invocation. -/
def init_run (news_cache : Fetcher.NewsCache) (sum_cache : Summarizer.SumCache)
    (topic language : String) (max_articles : Nat) : RunSt :=
  { st := initial_state topic language max_articles,
    news_cache := news_cache, sum_cache := sum_cache,
    counters := { retrieval_calls := 0, provider_requests := 0, summarize_calls := 0,
                  digest_calls := 0, gen_calls := 0, enhance_runs := 0 } }

/-- Fuel amply covering the longest workflow path (12 transitions). -/
def run_fuel : Nat := 50

/-- NewsAgent.process_topic: run the graph, then report "error" when the final
state carries an error and "success" otherwise.  Returns the status string and
the final instrumented run state. -/
def process_topic (env : AgentEnv) (news_cache : Fetcher.NewsCache)
    (sum_cache : Summarizer.SumCache) (topic : String) (max_articles : Nat)
    (language : String) : String × RunSt :=
  let out := exec env run_fuel (Node.validate, init_run news_cache sum_cache topic language max_articles)
  (if out.2.st.error.isSome then "error" else "success", out.2)

end Agent

namespace RelFilter

/-- The keyword-overlap ratio is a quotient of nonnegative counts. -/
theorem keyword_overlap_ratio_nonneg (env : NlpEnv) (article : Dict) (topic : String) :
    0 ≤ keyword_overlap_ratio env article topic := by
  unfold keyword_overlap_ratio
  exact div_nonneg (Nat.cast_nonneg _) (Nat.cast_nonneg _)

/-- C5: for every (article, topic) pair the relevance score lies in [0,1]; a topic
with no extractable keywords scores every article exactly 1/2; a topic with
keywords but an article with none scores exactly 3/10; otherwise the score is
min(1, 0.2 + keyword-overlap ratio + 0.2 per bonus-eligible topic word found in
the article text + 0.3 per such word found in the title).  The function is total,
so it cannot crash on empty-text articles. -/
theorem claim5_relevance_score (env : NlpEnv) (article : Dict) (topic : String) :
    (0 ≤ calculate_relevance_score env article topic ∧
      calculate_relevance_score env article topic ≤ 1) ∧
    (extract_keywords env topic = ∅ →
      calculate_relevance_score env article topic = 1/2) ∧
    (extract_keywords env topic ≠ ∅ →
      extract_keywords env (article_text_of article) = ∅ →
      calculate_relevance_score env article topic = 3/10) ∧
    (extract_keywords env topic ≠ ∅ →
      extract_keywords env (article_text_of article) ≠ ∅ →
      calculate_relevance_score env article topic =
        min (2/10 + keyword_overlap_ratio env article topic
          + (2/10) * (presence_count article topic : ℚ)
          + (3/10) * (title_count article topic : ℚ)) 1) := by
  have hscore : calculate_relevance_score env article topic =
      (if extract_keywords env topic = ∅ then (1:ℚ)/2
       else if extract_keywords env (article_text_of article) = ∅ then 3/10
       else min (2/10 + keyword_overlap_ratio env article topic
          + (2/10) * (presence_count article topic : ℚ)
          + (3/10) * (title_count article topic : ℚ)) 1) := rfl
  refine ⟨?_, ?_, ?_, ?_⟩
  · rw [hscore]
    by_cases h1 : extract_keywords env topic = ∅
    · rw [if_pos h1]
      constructor <;> norm_num
    · rw [if_neg h1]
      by_cases h2 : extract_keywords env (article_text_of article) = ∅
      · rw [if_pos h2]
        constructor <;> norm_num
      · rw [if_neg h2]
        have hk := keyword_overlap_ratio_nonneg env article topic
        have hp : (0:ℚ) ≤ (presence_count article topic : ℚ) := Nat.cast_nonneg _
        have ht : (0:ℚ) ≤ (title_count article topic : ℚ) := Nat.cast_nonneg _
        exact ⟨le_min (by linarith) zero_le_one, min_le_right _ _⟩
  · intro h1
    rw [hscore, if_pos h1]
  · intro h1 h2
    rw [hscore, if_neg h1, if_pos h2]
  · intro h1 h2
    rw [hscore, if_neg h1, if_neg h2]

end RelFilter

namespace Agent

/-- The content-richness step function always lies in [0,1]. -/
theorem content_score_bounds (c : String) :
    0 ≤ content_score c ∧ content_score c ≤ 1 := by
  unfold content_score
  split
  · norm_num
  · split
    · norm_num
    · split <;> norm_num

/-- A sample article body longer than 200 characters. -/
def rich_body : String := String.mk (List.replicate 201 'a')

/-- A rich sample article from a given source. -/
def rich_article (src : String) : Dict :=
  [("text_content", PyVal.str rich_body), ("source", PyVal.str src)]

/-- The concrete scenario of the claim: 3 rich articles from 3 distinct sources
with max_articles = 5. -/
def qc_example : AgentSt :=
  { initial_state "quantum computing" "en" 5 with
    articles := [rich_article "s1", rich_article "s2", rich_article "s3"] }

/-- C2: on a non-empty article list, quality_check sets the quality score to the
unweighted mean of (a) min(count/max_articles, 1), (b) the mean of the step
function on body length, and (c) min(distinct_sources / max(count*0.7, 1), 1);
the step function is the one the claim describes; the score lies in [0,1]
(stated over rational division, which maps the max_articles = 0 edge — where
Python would raise instead of producing a value — to a still-in-range 0); the
empty list yields
exactly 0 with the no-results error; and the 3-rich-articles/3-sources/max 5
scenario yields exactly 13/15 = mean(0.6, 1, 1). -/
theorem claim2_quality_score :
    (∀ s : AgentSt, s.articles ≠ [] →
      (quality_check s).quality_score =
        (min ((s.articles.length : ℚ) / (s.max_articles : ℚ)) 1
          + (s.articles.map (fun a => content_score (dgetStr a "text_content" ""))).sum
              / (s.articles.length : ℚ)
          + min (((s.articles.map (fun a => dgetStr a "source" "unknown")).dedup.length : ℚ)
              / max ((s.articles.length : ℚ) * (7/10)) 1) 1) / 3) ∧
    (∀ c : String, content_score c =
      if 200 < c.length then 1 else if 100 < c.length then 7/10
      else if 50 < c.length then 4/10 else 1/10) ∧
    (∀ s : AgentSt, s.articles ≠ [] →
      0 ≤ (quality_check s).quality_score ∧ (quality_check s).quality_score ≤ 1) ∧
    (∀ s : AgentSt, s.articles = [] →
      (quality_check s).quality_score = 0 ∧ (quality_check s).error = some no_results_msg) ∧
    (quality_check qc_example).quality_score = 13/15 := by
  have hformula : ∀ s : AgentSt, s.articles ≠ [] →
      (quality_check s).quality_score =
        (min ((s.articles.length : ℚ) / (s.max_articles : ℚ)) 1
          + (s.articles.map (fun a => content_score (dgetStr a "text_content" ""))).sum
              / (s.articles.length : ℚ)
          + min (((s.articles.map (fun a => dgetStr a "source" "unknown")).dedup.length : ℚ)
              / max ((s.articles.length : ℚ) * (7/10)) 1) 1) / 3 := by
    intro s h
    cases harts : s.articles with
    | nil => exact absurd harts h
    | cons a as =>
      simp only [quality_check, harts, List.isEmpty_cons, Bool.false_eq_true, if_false,
        List.map_cons, List.length_map, List.length_cons]
  refine ⟨hformula, fun c => rfl, ?_, ?_, ?_⟩
  · intro s h
    rw [hformula s h]
    have hn : (1:ℚ) ≤ (s.articles.length : ℚ) := by
      have : 1 ≤ s.articles.length := List.length_pos.mpr h
      exact_mod_cast this
    have hnpos : (0:ℚ) < (s.articles.length : ℚ) := lt_of_lt_of_le one_pos hn
    set A := min ((s.articles.length : ℚ) / (s.max_articles : ℚ)) 1 with hA
    set B := (s.articles.map (fun a => content_score (dgetStr a "text_content" ""))).sum
        / (s.articles.length : ℚ) with hB
    set C := min (((s.articles.map (fun a => dgetStr a "source" "unknown")).dedup.length : ℚ)
        / max ((s.articles.length : ℚ) * (7/10)) 1) 1 with hC
    have hA0 : 0 ≤ A := le_min (div_nonneg (Nat.cast_nonneg _) (Nat.cast_nonneg _)) zero_le_one
    have hA1 : A ≤ 1 := min_le_right _ _
    have hsum0 : 0 ≤ (s.articles.map (fun a => content_score (dgetStr a "text_content" ""))).sum := by
      apply List.sum_nonneg
      intro x hx
      obtain ⟨a, _, rfl⟩ := List.mem_map.mp hx
      exact (content_score_bounds _).1
    have hsum1 : (s.articles.map (fun a => content_score (dgetStr a "text_content" ""))).sum
        ≤ (s.articles.length : ℚ) := by
      have := List.sum_le_card_nsmul
        (s.articles.map (fun a => content_score (dgetStr a "text_content" ""))) 1
        (fun x hx => by
          obtain ⟨a, _, rfl⟩ := List.mem_map.mp hx
          exact (content_score_bounds _).2)
      simpa [List.length_map, nsmul_eq_mul] using this
    have hB0 : 0 ≤ B := div_nonneg hsum0 (le_of_lt hnpos)
    have hB1 : B ≤ 1 := by
      rw [hB, div_le_one hnpos]
      exact hsum1
    have hden : (1:ℚ) ≤ max ((s.articles.length : ℚ) * (7/10)) 1 := le_max_right _ _
    have hC0 : 0 ≤ C :=
      le_min (div_nonneg (Nat.cast_nonneg _) (le_trans zero_le_one hden)) zero_le_one
    have hC1 : C ≤ 1 := min_le_right _ _
    constructor
    · linarith
    · linarith
  · intro s h
    constructor
    · simp [quality_check, h]
    · simp [quality_check, h]
  · have harts : qc_example.articles = [rich_article "s1", rich_article "s2", rich_article "s3"] :=
      rfl
    have hne : qc_example.articles ≠ [] := by
      rw [harts]
      exact List.cons_ne_nil _ _
    rw [hformula qc_example hne, harts]
    have htc : ∀ src, dgetStr (rich_article src) "text_content" "" = rich_body := fun _ => rfl
    have hsrc : ∀ src, dgetStr (rich_article src) "source" "unknown" = src := fun _ => rfl
    have hlen : (200 : Nat) < rich_body.length := by decide
    have hcs : content_score rich_body = 1 := by
      unfold content_score
      rw [if_pos hlen]
    have hmax : qc_example.max_articles = 5 := rfl
    simp only [List.map_cons, List.map_nil, htc, hsrc, hcs, List.sum_cons, List.sum_nil,
      List.length_cons, List.length_nil, hmax]
    have hd : (["s1", "s2", "s3"] : List String).dedup = ["s1", "s2", "s3"] := by decide
    rw [hd]
    norm_num

end Agent

namespace Agent

/-- quality_check never changes the article list. -/
theorem quality_check_articles (s : AgentSt) : (quality_check s).articles = s.articles := by
  unfold quality_check
  split <;> rfl

/-- quality_check sets the no-results error on an empty article list. -/
theorem quality_check_empty_error (s : AgentSt) (h : s.articles = []) :
    (quality_check s).error = some no_results_msg := by
  unfold quality_check
  rw [if_pos (by simp [h])]

/-- C3: at the decision point after quality_check (where an empty article list
always comes with the error field set, as the last conjunct shows), the routing
returns "error" exactly when the error field is set or the articles are empty,
"enhance" exactly when neither holds and quality_score < 0.5 and retry_count < 2,
and "proceed" otherwise. -/
theorem claim3_routing (s : AgentSt) (hinv : s.articles = [] → s.error ≠ none) :
    (should_enhance_search s = "error" ↔ s.error ≠ none ∨ s.articles = []) ∧
    (should_enhance_search s = "enhance" ↔
      s.error = none ∧ s.articles ≠ [] ∧ s.quality_score < 1/2 ∧ s.retry_count < 2) ∧
    (should_enhance_search s = "proceed" ↔
      s.error = none ∧ s.articles ≠ [] ∧ ¬(s.quality_score < 1/2 ∧ s.retry_count < 2)) ∧
    ((quality_check s).articles = [] → (quality_check s).error ≠ none) := by
  have hpost : (quality_check s).articles = [] → (quality_check s).error ≠ none := by
    intro h
    rw [quality_check_articles] at h
    rw [quality_check_empty_error s h]
    exact Option.some_ne_none _
  cases herr : s.error with
  | some e =>
    have hroute : should_enhance_search s = "error" := by
      unfold should_enhance_search
      rw [if_pos (by rw [herr]; rfl)]
    refine ⟨?_, ?_, ?_, hpost⟩
    · rw [hroute]
      simp [herr]
    · rw [hroute]
      constructor
      · intro h
        exact absurd h (by decide)
      · rintro ⟨h, -⟩
        exact absurd h (by simp [herr])
    · rw [hroute]
      constructor
      · intro h
        exact absurd h (by decide)
      · rintro ⟨h, -⟩
        exact absurd h (by simp [herr])
  | none =>
    have hne : s.articles ≠ [] := fun h => absurd herr (by simpa using hinv h)
    have hisSome : s.error.isSome = false := by rw [herr]; rfl
    by_cases hq : s.quality_score < 1/2 ∧ s.retry_count < 2
    · have hroute : should_enhance_search s = "enhance" := by
        unfold should_enhance_search
        rw [if_neg (by rw [hisSome]; exact Bool.false_ne_true), if_pos hq]
      refine ⟨?_, ?_, ?_, hpost⟩
      · rw [hroute]
        constructor
        · intro h
          exact absurd h (by decide)
        · rintro (h | h)
          · exact absurd rfl h
          · exact absurd h hne
      · rw [hroute]
        constructor
        · intro _
          exact ⟨rfl, hne, hq⟩
        · intro _
          rfl
      · rw [hroute]
        constructor
        · intro h
          exact absurd h (by decide)
        · rintro ⟨-, -, h⟩
          exact absurd hq h
    · have hroute : should_enhance_search s = "proceed" := by
        unfold should_enhance_search
        rw [if_neg (by rw [hisSome]; exact Bool.false_ne_true), if_neg hq,
          if_neg (by simpa [List.isEmpty_iff] using hne)]
      refine ⟨?_, ?_, ?_, hpost⟩
      · rw [hroute]
        constructor
        · intro h
          exact absurd h (by decide)
        · rintro (h | h)
          · exact absurd rfl h
          · exact absurd h hne
      · rw [hroute]
        constructor
        · intro h
          exact absurd h (by decide)
        · rintro ⟨-, -, h⟩
          exact absurd h hq
      · rw [hroute]
        exact ⟨fun _ => ⟨rfl, hne, hq⟩, fun _ => rfl⟩

end Agent

/-- Stripping never lengthens a string. -/
theorem pyStrip_length_le (s : String) : (pyStrip s).length ≤ s.length := by
  have hdw : ∀ l : List Char, (l.dropWhile Char.isWhitespace).length ≤ l.length :=
    fun l => (List.dropWhile_suffix _).length_le
  show (((s.data.dropWhile Char.isWhitespace).reverse.dropWhile Char.isWhitespace).reverse).length
    ≤ s.data.length
  calc (((s.data.dropWhile Char.isWhitespace).reverse.dropWhile
        Char.isWhitespace).reverse).length
      = ((s.data.dropWhile Char.isWhitespace).reverse.dropWhile Char.isWhitespace).length :=
        List.length_reverse _
    _ ≤ (s.data.dropWhile Char.isWhitespace).reverse.length := hdw _
    _ = (s.data.dropWhile Char.isWhitespace).length := List.length_reverse _
    _ ≤ s.data.length := hdw _

/-- Reading another key through one store is unchanged (dict form). -/
theorem dget_dset_ne (d : Dict) (k k' : String) (v : PyVal) (h : k' ≠ k) :
    dget (dset d k v) k' = dget d k' :=
  alGet_alSet_ne d k k' v h

/-- Reading the key just stored (dict form). -/
theorem dget_dset_self (d : Dict) (k : String) (v : PyVal) :
    dget (dset d k v) k = some v :=
  alGet_alSet_self d k v

namespace Summarizer

/-- C9: a non-empty article list whose bodies are all shorter than 100 characters
or paywall-flagged makes create_digest_summary return the explanatory
placeholder naming the input length, leave the cache untouched, and invoke the
text-generation resource zero times. -/
theorem claim9_digest_placeholder (env : SumEnv) (cache : SumCache)
    (articles : List Dict) (max_length : Nat) (hne : articles ≠ [])
    (hall : ∀ a ∈ articles, (dgetStr a "text_content" "").length < 100 ∨
      substrB "ONLY AVAILABLE IN PAID PLANS" (dgetStr a "text_content" "") = true) :
    create_digest_summary env cache articles max_length =
      ([("digest", PyVal.str (digest_paywall_msg articles.length)),
        ("article_count", PyVal.int articles.length), ("cached", PyVal.bool false)],
       cache, 0) := by
  have hmean : ∀ a ∈ articles, meaningful_article a = false := by
    intro a ha
    unfold meaningful_article
    rcases hall a ha with h | h
    · have hle := pyStrip_length_le (dgetStr a "text_content" "")
      have : ¬ (100 < (pyStrip (dgetStr a "text_content" "")).length) := by omega
      simp [this]
    · simp [h]
  have hfilter : articles.filter meaningful_article = [] := by
    rw [List.filter_eq_nil_iff]
    intro a ha
    simp [hmean a ha]
  simp only [create_digest_summary]
  rw [if_neg (by simpa [List.isEmpty_iff] using hne), hfilter]
  rfl

end Summarizer

/-- Frame and key-set facts for the four-field update performed on each
summarized article. -/
theorem update4_frame (a : Dict) (v1 : String) (v2 v3 : Int) (v4 : Bool) :
    (∀ k : String, k ≠ "summary" → k ≠ "summary_length" → k ≠ "original_length" →
      k ≠ "cached" →
      dget (dupdate a [("summary", PyVal.str v1), ("summary_length", PyVal.int v2),
        ("original_length", PyVal.int v3), ("cached", PyVal.bool v4)]) k = dget a k) ∧
    (∀ k : String,
      (dget (dupdate a [("summary", PyVal.str v1), ("summary_length", PyVal.int v2),
        ("original_length", PyVal.int v3), ("cached", PyVal.bool v4)]) k).isSome ↔
      ((dget a k).isSome ∨ k = "summary" ∨ k = "summary_length" ∨ k = "original_length" ∨
        k = "cached")) := by
  have hb : dupdate a [("summary", PyVal.str v1), ("summary_length", PyVal.int v2),
      ("original_length", PyVal.int v3), ("cached", PyVal.bool v4)] =
      dset (dset (dset (dset a "summary" (PyVal.str v1)) "summary_length" (PyVal.int v2))
        "original_length" (PyVal.int v3)) "cached" (PyVal.bool v4) := rfl
  have hframe : ∀ k : String, k ≠ "summary" → k ≠ "summary_length" → k ≠ "original_length" →
      k ≠ "cached" →
      dget (dupdate a [("summary", PyVal.str v1), ("summary_length", PyVal.int v2),
        ("original_length", PyVal.int v3), ("cached", PyVal.bool v4)]) k = dget a k := by
    intro k h1 h2 h3 h4
    rw [hb, dget_dset_ne _ _ _ _ h4, dget_dset_ne _ _ _ _ h3, dget_dset_ne _ _ _ _ h2,
      dget_dset_ne _ _ _ _ h1]
  refine ⟨hframe, ?_⟩
  intro k
  by_cases h1 : k = "summary"
  · subst h1
    rw [hb, dget_dset_ne _ _ _ _ (by decide), dget_dset_ne _ _ _ _ (by decide),
      dget_dset_ne _ _ _ _ (by decide), dget_dset_self]
    simp
  · by_cases h2 : k = "summary_length"
    · subst h2
      rw [hb, dget_dset_ne _ _ _ _ (by decide), dget_dset_ne _ _ _ _ (by decide),
        dget_dset_self]
      simp
    · by_cases h3 : k = "original_length"
      · subst h3
        rw [hb, dget_dset_ne _ _ _ _ (by decide), dget_dset_self]
        simp
      · by_cases h4 : k = "cached"
        · subst h4
          rw [hb, dget_dset_self]
          simp
        · rw [hframe k h1 h2 h3 h4]
          simp [h1, h2, h3, h4]

namespace Summarizer

/-- C10: summarize_articles returns one output per input, in input order; each
output dict is the corresponding input with exactly the keys summary,
summary_length, original_length and cached added, and every other key mapped to
its input value.  The model is functional, so the input dicts are unchanged by
construction (the source likewise builds each output from `article.copy()`). -/
theorem claim10_summarize_frame (env : SumEnv) (cache : SumCache) (articles : List Dict)
    (max_length min_length : Nat) :
    (summarize_articles env cache articles max_length min_length).1.length = articles.length ∧
    List.Forall₂ (fun a b =>
        (∀ k : String, k ≠ "summary" → k ≠ "summary_length" → k ≠ "original_length" →
          k ≠ "cached" → dget b k = dget a k) ∧
        (∀ k : String, (dget b k).isSome ↔ ((dget a k).isSome ∨ k = "summary" ∨
          k = "summary_length" ∨ k = "original_length" ∨ k = "cached")))
      articles (summarize_articles env cache articles max_length min_length).1 := by
  induction articles generalizing cache with
  | nil => exact ⟨rfl, List.Forall₂.nil⟩
  | cons a rest ih =>
    have hcons : (summarize_articles env cache (a :: rest) max_length min_length).1 =
        dupdate a
          [("summary", PyVal.str (dgetStr (summarize_text env cache
              (article_text_for_summary a) max_length min_length).1 "summary" "")),
           ("summary_length", PyVal.int (dgetInt (summarize_text env cache
              (article_text_for_summary a) max_length min_length).1 "summary_length" 0)),
           ("original_length", PyVal.int (dgetInt (summarize_text env cache
              (article_text_for_summary a) max_length min_length).1 "original_length" 0)),
           ("cached", PyVal.bool (dgetBool (summarize_text env cache
              (article_text_for_summary a) max_length min_length).1 "cached" false))] ::
          (summarize_articles env (summarize_text env cache
            (article_text_for_summary a) max_length min_length).2.1 rest
            max_length min_length).1 := rfl
    rw [hcons]
    obtain ⟨ihlen, ihfa⟩ := ih ((summarize_text env cache
      (article_text_for_summary a) max_length min_length).2.1)
    exact ⟨by simp [ihlen], List.Forall₂.cons (update4_frame a _ _ _ _) ihfa⟩

end Summarizer

namespace Fetcher

/-- Every failing provider behavior makes _make_request return an error dict. -/
theorem make_request_failure (provider : ProviderReq → ProviderResp) (req : ProviderReq)
    (hfail : (provider req).isFailure = true) :
    ∃ m, make_request provider req = MRResult.error m := by
  unfold make_request
  cases hp : provider req with
  | httpError code body => exact ⟨_, rfl⟩
  | exn msg => exact ⟨_, rfl⟩
  | payloadError msg => exact ⟨_, rfl⟩
  | ok arts total =>
    rw [hp] at hfail
    exact absurd hfail (by simp [ProviderResp.isFailure])

/-- C7: when the cache holds no truthy entry for the key (so the provider is
consulted) and the provider fails in any of the three ways (non-2xx response,
transport exception, error payload), search_news returns the empty article list,
leaves the cache unchanged, and makes exactly the one failing request.  The
model is a total function, so no exception reaches the caller. -/
theorem claim7_provider_failure (env : FetchEnv) (cache : NewsCache)
    (topic language : String) (max_articles : Nat)
    (hmiss : ∀ l, cacheGet cache (search_cache_key topic language max_articles) = some l →
      l = [])
    (hfail : (env.provider (search_params env topic language max_articles)).isFailure = true) :
    search_news env cache topic language max_articles = ([], cache, 1) := by
  obtain ⟨m, hm⟩ := make_request_failure env.provider _ hfail
  unfold search_news
  cases hget : cacheGet cache (search_cache_key topic language max_articles) with
  | none =>
    simp only [hget, hm]
  | some l =>
    have hl : l = [] := hmiss l hget
    subst hl
    simp only [hget, List.isEmpty_nil, if_true, hm]

/-- A cache hit with a truthy (non-empty) stored list short-circuits search_news. -/
theorem search_news_hit (env : FetchEnv) (cache : NewsCache) (topic language : String)
    (max_articles : Nat) (l : List Dict)
    (hget : cacheGet cache (search_cache_key topic language max_articles) = some l)
    (hne : l ≠ []) :
    search_news env cache topic language max_articles = (l, cache, 0) := by
  unfold search_news
  have hie : l.isEmpty = false := by simpa [List.isEmpty_iff] using hne
  simp only [hget, hie, Bool.false_eq_true, if_false]

/-- On a cache miss with a successful provider response, search_news returns the
processed, filtered, truncated list and stores it under the key. -/
theorem search_news_miss_success (env : FetchEnv) (cache : NewsCache)
    (topic language : String) (max_articles : Nat) (data : List RawArticle) (total : Nat)
    (hmiss : ∀ l, cacheGet cache (search_cache_key topic language max_articles) = some l →
      l = [])
    (hp : make_request env.provider (search_params env topic language max_articles)
      = MRResult.success data total) :
    search_news env cache topic language max_articles =
      ((RelFilter.filter_relevant_articles env.nlp
          (if env.enable_extraction then
            enhance_articles_with_extraction env.ext (process_articles data)
          else process_articles data) topic (1/10) none).take max_articles,
       cacheSet cache (search_cache_key topic language max_articles)
         ((RelFilter.filter_relevant_articles env.nlp
            (if env.enable_extraction then
              enhance_articles_with_extraction env.ext (process_articles data)
            else process_articles data) topic (1/10) none).take max_articles),
       1) := by
  unfold search_news
  cases hget : cacheGet cache (search_cache_key topic language max_articles) with
  | none =>
    simp only [hget, hp]
  | some l =>
    have hl : l = [] := hmiss l hget
    subst hl
    simp only [hget, List.isEmpty_nil, if_true, hp]

/-- C6 (amended): whenever the first search_news call yields a non-empty article
list, an identical second call returns exactly that list, leaves the cache as
the first call left it, and makes no provider request. -/
theorem claim6_amended (env : FetchEnv) (cache : NewsCache) (topic language : String)
    (max_articles : Nat)
    (hne : (search_news env cache topic language max_articles).1 ≠ []) :
    search_news env (search_news env cache topic language max_articles).2.1
        topic language max_articles =
      ((search_news env cache topic language max_articles).1,
       (search_news env cache topic language max_articles).2.1, 0) := by
  by_cases hhit : ∃ l, cacheGet cache (search_cache_key topic language max_articles) = some l
      ∧ l ≠ []
  · obtain ⟨l, hget, hl⟩ := hhit
    have h1 := search_news_hit env cache topic language max_articles l hget hl
    rw [h1]
    exact search_news_hit env cache topic language max_articles l hget hl
  · have hmiss : ∀ l, cacheGet cache (search_cache_key topic language max_articles) = some l →
        l = [] := by
      intro l hget
      by_contra hl
      exact hhit ⟨l, hget, hl⟩
    cases hreq : make_request env.provider (search_params env topic language max_articles) with
    | error m =>
      have h1 : search_news env cache topic language max_articles = ([], cache, 1) := by
        unfold search_news
        cases hget : cacheGet cache (search_cache_key topic language max_articles) with
        | none => simp only [hget, hreq]
        | some l =>
          have hl : l = [] := hmiss l hget
          subst hl
          simp only [hget, List.isEmpty_nil, if_true, hreq]
      rw [h1] at hne
      exact absurd rfl hne
    | success data total =>
      have h1 := search_news_miss_success env cache topic language max_articles data total
        hmiss hreq
      rw [h1] at hne ⊢
      have hne1 : ((RelFilter.filter_relevant_articles env.nlp
          (if env.enable_extraction then
            enhance_articles_with_extraction env.ext (process_articles data)
          else process_articles data) topic (1/10) none).take max_articles) ≠ [] := by
        simpa using hne
      apply search_news_hit
      · exact alGet_alSet_self _ _ _
      · exact hne1

end Fetcher

namespace Extractor

/-- The trafilatura wrapper either fails or labels its result "trafilatura". -/
theorem traf_cases (env : ExtEnv) (url : String) :
    (extract_with_trafilatura env url).success = false ∨
    (extract_with_trafilatura env url).method = "trafilatura" := by
  unfold extract_with_trafilatura
  cases env.http_get url with
  | error e => exact Or.inl rfl
  | ok sb =>
    obtain ⟨status, body⟩ := sb
    dsimp only
    split
    · exact Or.inl rfl
    · split
      · split
        · exact Or.inr rfl
        · exact Or.inl rfl
      · exact Or.inl rfl

/-- The newspaper wrapper either fails or labels its result "newspaper". -/
theorem newspaper_cases (env : ExtEnv) (url : String) :
    (extract_with_newspaper env url).success = false ∨
    (extract_with_newspaper env url).method = "newspaper" := by
  unfold extract_with_newspaper
  cases env.np_download url with
  | error e => exact Or.inl rfl
  | ok tt =>
    obtain ⟨text, title⟩ := tt
    dsimp only
    split
    · exact Or.inr rfl
    · exact Or.inl rfl

/-- The beautifulsoup wrapper either fails or labels its result "beautifulsoup". -/
theorem bs4_cases (env : ExtEnv) (url : String) :
    (extract_with_beautifulsoup env url).success = false ∨
    (extract_with_beautifulsoup env url).method = "beautifulsoup" := by
  unfold extract_with_beautifulsoup
  cases env.bs4_fetch url with
  | error e => exact Or.inl rfl
  | ok page =>
    dsimp only
    split
    · exact Or.inr rfl
    · exact Or.inl rfl

/-- Qualifying results have their success flag set. -/
theorem qualifies_success (r : ExtractResult) (h : qualifies r = true) : r.success = true := by
  unfold qualifies at h
  simp only [Bool.and_eq_true] at h
  exact h.1.1

/-- C8: on a valid non-blacklisted URL with no strategy timeouts, the chain tries
trafilatura, newspaper, beautifulsoup in that fixed order, returns the first
result whose success flag is set and whose stripped text exceeds 100 characters
(the `method` field names that strategy, and every earlier strategy appears in
the attempt log before it), and when no strategy qualifies it returns
success=false with the composed failure reason. -/
theorem claim8_extraction_chain (env : ExtEnv) (url : String)
    (hne : url ≠ "") (hhttp : pyStartsWith url "http" = true)
    (hbl : is_blacklisted url = false)
    (ht : ∀ name, env.times_out url name = false) :
    (qualifies (extract_with_trafilatura env url) = true →
      extract_article_content env url = (extract_with_trafilatura env url, ["trafilatura"]) ∧
      (extract_with_trafilatura env url).method = "trafilatura") ∧
    (qualifies (extract_with_trafilatura env url) = false →
     qualifies (extract_with_newspaper env url) = true →
      extract_article_content env url =
        (extract_with_newspaper env url, ["trafilatura", "newspaper"]) ∧
      (extract_with_newspaper env url).method = "newspaper") ∧
    (qualifies (extract_with_trafilatura env url) = false →
     qualifies (extract_with_newspaper env url) = false →
     qualifies (extract_with_beautifulsoup env url) = true →
      extract_article_content env url =
        (extract_with_beautifulsoup env url, ["trafilatura", "newspaper", "beautifulsoup"]) ∧
      (extract_with_beautifulsoup env url).method = "beautifulsoup") ∧
    (qualifies (extract_with_trafilatura env url) = false →
     qualifies (extract_with_newspaper env url) = false →
     qualifies (extract_with_beautifulsoup env url) = false →
      extract_article_content env url =
        (all_failed_result, ["trafilatura", "newspaper", "beautifulsoup"]) ∧
      all_failed_result.success = false ∧
      all_failed_result.error = "All extraction methods failed or timed out") := by
  have hbase : extract_article_content env url = runChain env url (methods env) [] := by
    unfold extract_article_content
    rw [if_neg, if_neg]
    · simp [hbl]
    · push_neg
      exact ⟨hne, by simp [hhttp]⟩
  have hm : methods env = [("trafilatura", extract_with_trafilatura env),
      ("newspaper", extract_with_newspaper env),
      ("beautifulsoup", extract_with_beautifulsoup env)] := rfl
  refine ⟨?_, ?_, ?_, ?_⟩
  · intro hq1
    refine ⟨?_, ?_⟩
    · rw [hbase, hm]
      simp only [runChain, ht, Bool.false_eq_true, if_false, hq1, if_true, List.nil_append]
    · rcases traf_cases env url with h | h
      · rw [qualifies_success _ hq1] at h
        exact absurd h (by decide)
      · exact h
  · intro hq1 hq2
    refine ⟨?_, ?_⟩
    · rw [hbase, hm]
      simp only [runChain, ht, Bool.false_eq_true, if_false, hq1, hq2, if_true,
        List.nil_append, List.cons_append]
    · rcases newspaper_cases env url with h | h
      · rw [qualifies_success _ hq2] at h
        exact absurd h (by decide)
      · exact h
  · intro hq1 hq2 hq3
    refine ⟨?_, ?_⟩
    · rw [hbase, hm]
      simp only [runChain, ht, Bool.false_eq_true, if_false, hq1, hq2, hq3, if_true,
        List.nil_append, List.cons_append]
    · rcases bs4_cases env url with h | h
      · rw [qualifies_success _ hq3] at h
        exact absurd h (by decide)
      · exact h
  · intro hq1 hq2 hq3
    refine ⟨?_, ?_, ?_⟩
    · rw [hbase, hm]
      simp only [runChain, ht, Bool.false_eq_true, if_false, hq1, hq2, hq3,
        List.nil_append, List.cons_append]
    · rfl
    · rfl

end Extractor

namespace Agent

/-- One unit of fuel runs one transition. -/
theorem exec_succ (env : AgentEnv) (n : Nat) (c : Node × RunSt) :
    exec env (n + 1) c = exec env n (step env c) := rfl

/-- END is absorbing. -/
theorem exec_done (env : AgentEnv) (n : Nat) (c : RunSt) :
    exec env n (Node.done, c) = (Node.done, c) := by
  induction n with
  | zero => rfl
  | succ k ih =>
    rw [exec_succ, show step env (Node.done, c) = (Node.done, c) from rfl]
    exact ih

/-- fetch_news does not change the error field. -/
theorem fetch_news_error (env : AgentEnv) (r : RunSt) :
    (fetch_news env r).st.error = r.st.error := rfl

/-- quality_check keeps the error field set when it was set. -/
theorem quality_check_error_isSome (s : AgentSt) (h : s.error.isSome = true) :
    (quality_check s).error.isSome = true := by
  unfold quality_check
  split
  · rfl
  · exact h

/-- quality_check never changes retry_count. -/
theorem quality_check_retry (s : AgentSt) :
    (quality_check s).retry_count = s.retry_count := by
  unfold quality_check
  split <;> rfl

/-- The routing decision is "error" whenever the error field is set. -/
theorem should_enhance_error (s : AgentSt) (h : s.error.isSome = true) :
    should_enhance_search s = "error" := by
  unfold should_enhance_search
  rw [if_pos h]

/-- The routing decision is "enhance" only below the retry cap. -/
theorem should_enhance_lt (s : AgentSt) (h : should_enhance_search s = "enhance") :
    s.retry_count < 2 := by
  unfold should_enhance_search at h
  split_ifs at h with h1 h2 h3
  · exact absurd h (by decide)
  · exact h2.2
  · exact absurd h (by decide)
  · exact absurd h (by decide)

/-- A quality transition with the error flag set routes to the error handler. -/
theorem step_quality_error (env : AgentEnv) (r : RunSt)
    (h : (quality_check r.st).error.isSome = true) :
    step env (Node.quality, r) = (Node.handleError, { r with st := quality_check r.st }) := by
  simp only [step]
  rw [show should_enhance_search (quality_check r.st) = "error" from should_enhance_error _ h]
  rw [if_neg (by decide), if_neg (by decide)]

/-- enhance_search always increments retry_count by exactly one. -/
theorem enhance_search_retry (s : AgentSt) :
    (enhance_search s).retry_count = s.retry_count + 1 := by
  unfold enhance_search
  dsimp only
  split <;> rfl

/-- validate_input leaves a zero retry counter at zero. -/
theorem validate_input_retry (s : AgentSt) (h : s.retry_count = 0) :
    (validate_input s).retry_count = 0 := by
  unfold validate_input
  split
  · exact h
  · rfl

/-- validate_input on an invalid (too-short) topic only sets the error field. -/
theorem validate_input_invalid (s : AgentSt) (h : (pyStrip s.topic).length < 2) :
    validate_input s = { s with error := some "Topic must be at least 2 characters long" } := by
  unfold validate_input
  rw [if_pos (Or.inr h)]

/-- C1 (amended): for every topic whose trimmed length is below 2 characters,
process_topic reports status "error" and makes no summarization, digest or
generation call; however the workflow still performs exactly one retrieval call
(the graph edge from validate_input to fetch_news is unconditional), contrary
to the original claim's "no retrieval call". -/
theorem claim1_amended (env : AgentEnv) (nc : Fetcher.NewsCache) (sc : Summarizer.SumCache)
    (topic language : String) (max_articles : Nat)
    (h : (pyStrip topic).length < 2) :
    (process_topic env nc sc topic max_articles language).1 = "error" ∧
    (process_topic env nc sc topic max_articles language).2.counters.summarize_calls = 0 ∧
    (process_topic env nc sc topic max_articles language).2.counters.digest_calls = 0 ∧
    (process_topic env nc sc topic max_articles language).2.counters.gen_calls = 0 ∧
    (process_topic env nc sc topic max_articles language).2.counters.retrieval_calls = 1 := by
  have hv : validate_input (init_run nc sc topic language max_articles).st =
      { (init_run nc sc topic language max_articles).st with
        error := some "Topic must be at least 2 characters long" } :=
    validate_input_invalid _ h
  have e1 : step env (Node.validate, init_run nc sc topic language max_articles) =
      (Node.fetch, { init_run nc sc topic language max_articles with
        st := { (init_run nc sc topic language max_articles).st with
          error := some "Topic must be at least 2 characters long" } }) := by
    simp only [step]
    rw [hv]
  have e2 : step env (Node.fetch, { init_run nc sc topic language max_articles with
      st := { (init_run nc sc topic language max_articles).st with
        error := some "Topic must be at least 2 characters long" } }) =
      (Node.quality, fetch_news env { init_run nc sc topic language max_articles with
        st := { (init_run nc sc topic language max_articles).st with
          error := some "Topic must be at least 2 characters long" } }) := rfl
  have herr2 : (fetch_news env { init_run nc sc topic language max_articles with
      st := { (init_run nc sc topic language max_articles).st with
        error := some "Topic must be at least 2 characters long" } }).st.error.isSome = true := by
    rw [fetch_news_error]
    rfl
  have hq := quality_check_error_isSome _ herr2
  have e3 := step_quality_error env (fetch_news env
    { init_run nc sc topic language max_articles with
      st := { (init_run nc sc topic language max_articles).st with
        error := some "Topic must be at least 2 characters long" } }) hq
  have hrun : exec env run_fuel (Node.validate, init_run nc sc topic language max_articles) =
      (Node.done,
        { (fetch_news env { init_run nc sc topic language max_articles with
            st := { (init_run nc sc topic language max_articles).st with
              error := some "Topic must be at least 2 characters long" } }) with
          st := handle_error (quality_check (fetch_news env
            { init_run nc sc topic language max_articles with
              st := { (init_run nc sc topic language max_articles).st with
                error := some "Topic must be at least 2 characters long" } }).st) }) := by
    rw [show run_fuel = 46 + 1 + 1 + 1 + 1 from rfl]
    rw [exec_succ, e1, exec_succ, e2, exec_succ, e3, exec_succ,
      show ∀ r : RunSt, step env (Node.handleError, r) =
        (Node.done, { r with st := handle_error r.st }) from fun _ => rfl]
    exact exec_done env 46 _
  unfold process_topic
  rw [hrun]
  have herr4 : (handle_error (quality_check (fetch_news env
      { init_run nc sc topic language max_articles with
        st := { (init_run nc sc topic language max_articles).st with
          error := some "Topic must be at least 2 characters long" } }).st)).error.isSome
      = true := by
    show (quality_check (fetch_news env _).st).error.isSome = true
    exact hq
  refine ⟨by simp only [herr4, if_true], rfl, rfl, rfl, rfl⟩

end Agent

namespace Agent

/-- The inductive invariant of a workflow run: the enhance counter mirrors
retry_count, retry_count never exceeds 2, the enhance node is entered only
below the cap, and the entry node starts from zero. -/
def RunInv (c : Node × RunSt) : Prop :=
  c.2.counters.enhance_runs = c.2.st.retry_count ∧
  c.2.st.retry_count ≤ 2 ∧
  (c.1 = Node.enhance → c.2.st.retry_count < 2) ∧
  (c.1 = Node.validate → c.2.st.retry_count = 0)

/-- Every workflow transition preserves the run invariant. -/
theorem inv_step (env : AgentEnv) (c : Node × RunSt) (h : RunInv c) : RunInv (step env c) := by
  obtain ⟨n, r⟩ := c
  obtain ⟨h1, h2, h3, h4⟩ := h
  cases n with
  | validate =>
    have hr0 : r.st.retry_count = 0 := h4 rfl
    refine ⟨?_, ?_, ?_, ?_⟩
    · show r.counters.enhance_runs = (validate_input r.st).retry_count
      rw [validate_input_retry r.st hr0, h1, hr0]
    · show (validate_input r.st).retry_count ≤ 2
      rw [validate_input_retry r.st hr0]
      exact Nat.zero_le 2
    · intro hn
      exact Node.noConfusion hn
    · intro hn
      exact Node.noConfusion hn
  | fetch =>
    exact ⟨h1, h2, fun hn => Node.noConfusion hn, fun hn => Node.noConfusion hn⟩
  | quality =>
    show RunInv (step env (Node.quality, r))
    have hretry : (quality_check r.st).retry_count = r.st.retry_count := quality_check_retry r.st
    simp only [step]
    by_cases hd : should_enhance_search (quality_check r.st) = "enhance"
    · rw [if_pos hd]
      have hlt : r.st.retry_count < 2 := by
        have := should_enhance_lt _ hd
        rw [hretry] at this
        exact this
      exact ⟨by rw [show ({ r with st := quality_check r.st } : RunSt).st.retry_count
          = (quality_check r.st).retry_count from rfl, hretry]; exact h1,
        by rw [show ({ r with st := quality_check r.st } : RunSt).st.retry_count
          = (quality_check r.st).retry_count from rfl, hretry]; exact h2,
        fun _ => by rw [show ({ r with st := quality_check r.st } : RunSt).st.retry_count
          = (quality_check r.st).retry_count from rfl, hretry]; exact hlt,
        fun hn => Node.noConfusion hn⟩
    · rw [if_neg hd]
      by_cases hp : should_enhance_search (quality_check r.st) = "proceed"
      · rw [if_pos hp]
        exact ⟨by rw [show ({ r with st := quality_check r.st } : RunSt).st.retry_count
            = (quality_check r.st).retry_count from rfl, hretry]; exact h1,
          by rw [show ({ r with st := quality_check r.st } : RunSt).st.retry_count
            = (quality_check r.st).retry_count from rfl, hretry]; exact h2,
          fun hn => Node.noConfusion hn, fun hn => Node.noConfusion hn⟩
      · rw [if_neg hp]
        exact ⟨by rw [show ({ r with st := quality_check r.st } : RunSt).st.retry_count
            = (quality_check r.st).retry_count from rfl, hretry]; exact h1,
          by rw [show ({ r with st := quality_check r.st } : RunSt).st.retry_count
            = (quality_check r.st).retry_count from rfl, hretry]; exact h2,
          fun hn => Node.noConfusion hn, fun hn => Node.noConfusion hn⟩
  | enhance =>
    have hlt : r.st.retry_count < 2 := h3 rfl
    refine ⟨?_, ?_, ?_, ?_⟩
    · show r.counters.enhance_runs + 1 = (enhance_search r.st).retry_count
      rw [enhance_search_retry, h1]
    · show (enhance_search r.st).retry_count ≤ 2
      rw [enhance_search_retry]
      omega
    · intro hn
      exact Node.noConfusion hn
    · intro hn
      exact Node.noConfusion hn
  | summarizeN =>
    exact ⟨h1, h2, fun hn => Node.noConfusion hn, fun hn => Node.noConfusion hn⟩
  | digestN =>
    exact ⟨h1, h2, fun hn => Node.noConfusion hn, fun hn => Node.noConfusion hn⟩
  | format =>
    exact ⟨h1, h2, fun hn => Node.noConfusion hn, fun hn => Node.noConfusion hn⟩
  | handleError =>
    exact ⟨h1, h2, fun hn => Node.noConfusion hn, fun hn => Node.noConfusion hn⟩
  | done =>
    exact ⟨h1, h2, fun hn => Node.noConfusion hn, fun hn => Node.noConfusion hn⟩

/-- The invariant propagates through any amount of fuel. -/
theorem inv_exec (env : AgentEnv) (n : Nat) (c : Node × RunSt) (h : RunInv c) :
    RunInv (exec env n c) := by
  induction n generalizing c with
  | zero => exact h
  | succ k ih =>
    rw [exec_succ]
    exact ih _ (inv_step env c h)

/-- C4: after any number of workflow transitions from a fresh process_topic run
(hence in every state reachable during a single run), retry_count is at most 2
and the enhance_search node has executed at most 2 times. -/
theorem claim4_retry_bound (env : AgentEnv) (nc : Fetcher.NewsCache)
    (sc : Summarizer.SumCache) (topic language : String) (max_articles n : Nat) :
    (exec env n (Node.validate, init_run nc sc topic language max_articles)).2.st.retry_count
      ≤ 2 ∧
    (exec env n (Node.validate,
      init_run nc sc topic language max_articles)).2.counters.enhance_runs ≤ 2 := by
  have hinit : RunInv (Node.validate, init_run nc sc topic language max_articles) :=
    ⟨rfl, Nat.zero_le 2, fun hn => Node.noConfusion hn, fun _ => rfl⟩
  have h := inv_exec env n _ hinit
  exact ⟨h.2.1, by rw [h.1]; exact h.2.1⟩

end Agent

namespace Fixtures

/-- Concrete NLP data: no stop words, identity stemmer. -/
def nlp_test : RelFilter.NlpEnv := { stop_words := [], stem := id }

/-- An extractor world where every network call raises. -/
def ext_test : Extractor.ExtEnv :=
  { http_get := fun _ => Except.error "connection refused",
    traf_extract := fun _ => none, html_title := fun _ => "",
    np_download := fun _ => Except.error "connection refused",
    bs4_fetch := fun _ => Except.error "connection refused",
    bs4_content := fun _ => "", bs4_title := fun _ => "",
    times_out := fun _ _ => false }

/-- A provider that always answers success with zero articles. -/
def provider_empty : Fetcher.ProviderReq → Fetcher.ProviderResp :=
  fun _ => Fetcher.ProviderResp.ok [] 0

/-- Fetcher configuration over the empty provider, extraction disabled. -/
def fetch_env_empty : Fetcher.FetchEnv :=
  { nlp := nlp_test, provider := provider_empty, ext := ext_test,
    use_timeframe := false, enable_extraction := false, yesterday := "2026-10-11" }

/-- A provider whose transport always fails. -/
def provider_down : Fetcher.ProviderReq → Fetcher.ProviderResp :=
  fun _ => Fetcher.ProviderResp.exn "Connection timed out"

/-- Fetcher configuration over the failing provider. -/
def fetch_env_down : Fetcher.FetchEnv := { fetch_env_empty with provider := provider_down }

/-- A summarization world whose generation always succeeds. -/
def sum_env_test : Summarizer.SumEnv :=
  { generate := fun _ _ _ => some "A generated summary.", tokenizer_trunc := id,
    model_name := "facebook/bart-large-cnn" }

/-- A full agent world over the empty provider. -/
def agent_env : Agent.AgentEnv := { fetch := fetch_env_empty, sum := sum_env_test }

/-- A cached article record. -/
def cached_article : Dict := [("title", PyVal.str "Quantum leap")]

/-- A retrieval cache already holding a non-empty entry for (quantum, en, 5). -/
def warm_cache : Fetcher.NewsCache := [("search_quantum_en_5", [cached_article])]

/-- A 150-character body, long enough to qualify in the extraction chain. -/
def long_content : String := String.mk (List.replicate 150 'b')

/-- An extractor world where only the beautifulsoup strategy qualifies:
trafilatura finds only a short text and newspaper raises. -/
def ext_bs4 : Extractor.ExtEnv :=
  { http_get := fun _ => Except.ok (200, "<html><body>hi</body></html>"),
    traf_extract := fun _ => some "too short",
    html_title := fun _ => "T",
    np_download := fun _ => Except.error "newspaper parse failure",
    bs4_fetch := fun _ => Except.ok "<html>page</html>",
    bs4_content := fun _ => long_content,
    bs4_title := fun _ => "T",
    times_out := fun _ _ => false }

/-- An article whose body is under 100 characters. -/
def short_article : Dict := [("text_content", PyVal.str "Short body.")]

/-- An article matching the topic "quantum" in title and body. -/
def rich_rel_article : Dict :=
  [("title", PyVal.str "Quantum news"),
   ("text_content", PyVal.str "all about quantum computing")]

/-- A post-quality state at the retry cap, used to exercise the proceed route. -/
def proceed_state : Agent.AgentSt := { Agent.qc_example with retry_count := 2 }

end Fixtures

/-- C1 counterexample: with the topic "a" (trimmed length 1 < 2) the workflow
still reports status "error", but it performs one retrieval call, refuting the
claim's "no retrieval call is made". -/
theorem claim1_counterexample :
    (Agent.process_topic Fixtures.agent_env [] [] "a" 20 "en").1 = "error" ∧
    (Agent.process_topic Fixtures.agent_env [] [] "a" 20 "en").2.counters.retrieval_calls = 1 ∧
    ¬ ((Agent.process_topic Fixtures.agent_env [] [] "a" 20 "en").2.counters.retrieval_calls
        = 0) := by
  decide

/-- C1 witness: the amended statement instantiated at topic "a". -/
theorem claim1_amended_witness :
    (Agent.process_topic Fixtures.agent_env [] [] "a" 20 "en").1 = "error" ∧
    (Agent.process_topic Fixtures.agent_env [] [] "a" 20 "en").2.counters.summarize_calls = 0 ∧
    (Agent.process_topic Fixtures.agent_env [] [] "a" 20 "en").2.counters.digest_calls = 0 ∧
    (Agent.process_topic Fixtures.agent_env [] [] "a" 20 "en").2.counters.gen_calls = 0 ∧
    (Agent.process_topic Fixtures.agent_env [] [] "a" 20 "en").2.counters.retrieval_calls = 1 :=
  Agent.claim1_amended Fixtures.agent_env [] [] "a" "en" 20 (by decide)

/-- C2 witness: the bound part at the 3-article scenario and the empty-list part
at a fresh state. -/
theorem claim2_quality_score_witness :
    (0 ≤ (Agent.quality_check Agent.qc_example).quality_score ∧
      (Agent.quality_check Agent.qc_example).quality_score ≤ 1) ∧
    ((Agent.quality_check (Agent.initial_state "x" "en" 5)).quality_score = 0 ∧
      (Agent.quality_check (Agent.initial_state "x" "en" 5)).error
        = some Agent.no_results_msg) :=
  ⟨Agent.claim2_quality_score.2.2.1 Agent.qc_example (by decide),
   Agent.claim2_quality_score.2.2.2.1 (Agent.initial_state "x" "en" 5) rfl⟩

/-- C3 witness: a healthy state at the retry cap routes to "proceed". -/
theorem claim3_routing_witness :
    Agent.should_enhance_search Fixtures.proceed_state = "proceed" :=
  (Agent.claim3_routing Fixtures.proceed_state
      (fun hempty => absurd hempty (by decide))).2.2.1.mpr
    ⟨rfl, by decide, fun hq => absurd hq.2 (by decide)⟩

/-- C5 witness: the three regimes of the scorer at concrete inputs — a
keyword-free topic, a keyword-free article, and the additive formula. -/
theorem claim5_relevance_score_witness :
    RelFilter.calculate_relevance_score Fixtures.nlp_test [] "ai" = 1/2 ∧
    RelFilter.calculate_relevance_score Fixtures.nlp_test [] "quantum" = 3/10 ∧
    RelFilter.calculate_relevance_score Fixtures.nlp_test Fixtures.rich_rel_article "quantum" =
      min (2/10 + RelFilter.keyword_overlap_ratio Fixtures.nlp_test
          Fixtures.rich_rel_article "quantum"
        + (2/10) * (RelFilter.presence_count Fixtures.rich_rel_article "quantum" : ℚ)
        + (3/10) * (RelFilter.title_count Fixtures.rich_rel_article "quantum" : ℚ)) 1 :=
  ⟨(RelFilter.claim5_relevance_score Fixtures.nlp_test [] "ai").2.1 (by decide),
   (RelFilter.claim5_relevance_score Fixtures.nlp_test [] "quantum").2.2.1
     (by decide) (by decide),
   (RelFilter.claim5_relevance_score Fixtures.nlp_test Fixtures.rich_rel_article
     "quantum").2.2.2 (by decide) (by decide)⟩

/-- C6 counterexample: the first call caches an empty list (the provider answered
success with zero articles); because the cache test uses Python truthiness, the
identical second call still makes a provider request, refuting "the second call
makes no provider request". -/
theorem claim6_counterexample :
    ¬ ((Fetcher.search_news Fixtures.fetch_env_empty
        (Fetcher.search_news Fixtures.fetch_env_empty [] "quantum" "en" 5).2.1
        "quantum" "en" 5).2.2 = 0) := by
  decide

/-- C6 witness: with a warm non-empty cache entry the second call returns the
identical list and makes no provider request. -/
theorem claim6_amended_witness :
    Fetcher.search_news Fixtures.fetch_env_empty
        (Fetcher.search_news Fixtures.fetch_env_empty Fixtures.warm_cache
          "quantum" "en" 5).2.1 "quantum" "en" 5 =
      ((Fetcher.search_news Fixtures.fetch_env_empty Fixtures.warm_cache "quantum" "en" 5).1,
       (Fetcher.search_news Fixtures.fetch_env_empty Fixtures.warm_cache "quantum" "en" 5).2.1,
       0) :=
  Fetcher.claim6_amended Fixtures.fetch_env_empty Fixtures.warm_cache "quantum" "en" 5
    (by decide)

/-- C7 witness: a transport failure on an empty cache yields the empty list, an
unchanged cache, and the one failing request. -/
theorem claim7_provider_failure_witness :
    Fetcher.search_news Fixtures.fetch_env_down [] "quantum" "en" 5 = ([], [], 1) :=
  Fetcher.claim7_provider_failure Fixtures.fetch_env_down [] "quantum" "en" 5
    (fun _ hl => Option.noConfusion hl) (by decide)

/-- C8 witness: in a world where only the third strategy qualifies, the chain
attempts all three in order and returns the beautifulsoup result, labelled as
such. -/
theorem claim8_extraction_chain_witness :
    Extractor.extract_article_content Fixtures.ext_bs4 "http://example.com/x" =
      (Extractor.extract_with_beautifulsoup Fixtures.ext_bs4 "http://example.com/x",
       ["trafilatura", "newspaper", "beautifulsoup"]) ∧
    (Extractor.extract_with_beautifulsoup Fixtures.ext_bs4 "http://example.com/x").method
      = "beautifulsoup" :=
  (Extractor.claim8_extraction_chain Fixtures.ext_bs4 "http://example.com/x"
      (by decide) (by decide) (by decide) (fun _ => rfl)).2.2.1
    (by decide) (by decide) (by decide)

/-- C9 witness: one under-100-character article produces the placeholder naming
one article, with the cache untouched and zero generation calls. -/
theorem claim9_digest_placeholder_witness :
    Summarizer.create_digest_summary Fixtures.sum_env_test [] [Fixtures.short_article] 200 =
      ([("digest", PyVal.str (Summarizer.digest_paywall_msg 1)),
        ("article_count", PyVal.int 1), ("cached", PyVal.bool false)], [], 0) :=
  Summarizer.claim9_digest_placeholder Fixtures.sum_env_test [] [Fixtures.short_article] 200
    (by decide) (by decide)

/-- C10 witness: the frame theorem instantiated at a one-article list. -/
theorem claim10_summarize_frame_witness :
    (Summarizer.summarize_articles Fixtures.sum_env_test [] [Fixtures.short_article]
      150 50).1.length = 1 :=
  (Summarizer.claim10_summarize_frame Fixtures.sum_env_test [] [Fixtures.short_article]
    150 50).1
